import Mathlib

/-!
Verification of `homeassistant/components/discovergy/sensor.py`:
a shallow embedding of the Discovergy sensor platform.

Modelling choices:
* Python dicts (`Reading.values`, `data.coordinators`) are association
  lists with first-match lookup and in-place update on existing keys.
* Raw reading values are rationals (`ℚ`); Python's true division `/` is
  exact division on `ℚ`, with division by zero modelled as a fault
  (`Option.none`), matching Python's `ZeroDivisionError`.
* Fallible operations return `Option`/`Except`; the vendor fetch is an
  oracle `FetchResult` covering the success case and the three exception
  classes distinguished by `async_update_data`.
-/

/-- First-match lookup in an association list (Python `d[k]` / `k in d`). -/
def alookup {α β : Type} [DecidableEq α] : List (α × β) → α → Option β
  | [], _ => none
  | (a, b) :: rest, k => if a = k then some b else alookup rest k

/-- Python `d[k] = v`: replace the binding in place if `k` is present,
otherwise append it (insertion order preserved). -/
def dictInsert {α β : Type} [DecidableEq α] : List (α × β) → α → β → List (α × β)
  | [], k, v => [(k, v)]
  | (a, b) :: rest, k, v =>
    if a = k then (k, v) :: rest else (a, b) :: dictInsert rest k v

/-- `pydiscovergy.models.Location`: the installation location of a meter. -/
structure Location where
  street : String
  street_number : String
deriving DecidableEq

/-- `pydiscovergy.models.Meter`: the attributes of a meter consumed by
`sensor.py`. -/
structure Meter where
  meter_id : String
  full_serial_number : String
  measurement_type : String
  type : String
  location : Location
deriving DecidableEq

/-- `Meter.get_meter_id()` returns the meter's identifier. -/
def Meter.get_meter_id (m : Meter) : String := m.meter_id

/-- `pydiscovergy.models.Reading`: a timestamped mapping from data keys to
raw numeric values. -/
structure Reading where
  time : Nat
  values : List (String × ℚ)
deriving DecidableEq

/-- `key in reading.values` (Python dict membership). -/
def Reading.hasKey (r : Reading) (k : String) : Bool :=
  (alookup r.values k).isSome

/-- `DiscovergySensorEntityDescription`, the dataclass combining
`DiscovergyMixin` (fields `alternative_keys`, default `[]`, and `scale`,
default `1000`) with `SensorEntityDescription` (whose
`entity_registry_enabled_default` defaults to `True`). -/
structure DiscovergySensorEntityDescription where
  key : String
  translation_key : String
  native_unit_of_measurement : String
  suggested_display_precision : Nat
  device_class : String
  state_class : String
  entity_registry_enabled_default : Bool := true
  alternative_keys : List String := []
  scale : Int := 1000
deriving DecidableEq

/-- `UnitOfVolume.CUBIC_METERS`. -/
def UnitOfVolume.CUBIC_METERS : String := "m³"

/-- `UnitOfPower.WATT`. -/
def UnitOfPower.WATT : String := "W"

/-- `UnitOfElectricPotential.VOLT`. -/
def UnitOfElectricPotential.VOLT : String := "V"

/-- `UnitOfEnergy.KILO_WATT_HOUR`. -/
def UnitOfEnergy.KILO_WATT_HOUR : String := "kWh"

/-- `GAS_SENSORS`: the module-level table of gas sensor descriptions. -/
def GAS_SENSORS : List DiscovergySensorEntityDescription :=
  [{ key := "volume"
     translation_key := "total_gas_consumption"
     suggested_display_precision := 4
     native_unit_of_measurement := UnitOfVolume.CUBIC_METERS
     device_class := "gas"
     state_class := "total_increasing" }]

/-- `ELECTRICITY_SENSORS`: the module-level table of electricity sensor
descriptions. -/
def ELECTRICITY_SENSORS : List DiscovergySensorEntityDescription :=
  [{ key := "power"
     translation_key := "total_power"
     native_unit_of_measurement := UnitOfPower.WATT
     suggested_display_precision := 3
     device_class := "power"
     state_class := "measurement" },
   { key := "power1"
     translation_key := "phase_1_power"
     native_unit_of_measurement := UnitOfPower.WATT
     suggested_display_precision := 3
     device_class := "power"
     state_class := "measurement"
     entity_registry_enabled_default := false
     alternative_keys := ["phase1Power"] },
   { key := "power2"
     translation_key := "phase_2_power"
     native_unit_of_measurement := UnitOfPower.WATT
     suggested_display_precision := 3
     device_class := "power"
     state_class := "measurement"
     entity_registry_enabled_default := false
     alternative_keys := ["phase2Power"] },
   { key := "power3"
     translation_key := "phase_3_power"
     native_unit_of_measurement := UnitOfPower.WATT
     suggested_display_precision := 3
     device_class := "power"
     state_class := "measurement"
     entity_registry_enabled_default := false
     alternative_keys := ["phase3Power"] },
   { key := "phase1Voltage"
     translation_key := "phase_1_voltage"
     native_unit_of_measurement := UnitOfElectricPotential.VOLT
     suggested_display_precision := 1
     device_class := "voltage"
     state_class := "measurement"
     entity_registry_enabled_default := false },
   { key := "phase2Voltage"
     translation_key := "phase_2_voltage"
     native_unit_of_measurement := UnitOfElectricPotential.VOLT
     suggested_display_precision := 1
     device_class := "voltage"
     state_class := "measurement"
     entity_registry_enabled_default := false },
   { key := "phase3Voltage"
     translation_key := "phase_3_voltage"
     native_unit_of_measurement := UnitOfElectricPotential.VOLT
     suggested_display_precision := 1
     device_class := "voltage"
     state_class := "measurement"
     entity_registry_enabled_default := false },
   { key := "energy"
     translation_key := "total_consumption"
     native_unit_of_measurement := UnitOfEnergy.KILO_WATT_HOUR
     suggested_display_precision := 4
     device_class := "energy"
     state_class := "total_increasing"
     scale := 10000000000 },
   { key := "energyOut"
     translation_key := "total_production"
     native_unit_of_measurement := UnitOfEnergy.KILO_WATT_HOUR
     suggested_display_precision := 4
     device_class := "energy"
     state_class := "total_increasing"
     scale := 10000000000 }]

/-- Outcome of `discovergy_instance.get_last_reading(...)`: either a
`Reading`, or one of the exception classes the caller distinguishes
(`AccessTokenExpired`, `HTTPError`, any other `Exception`). -/
inductive FetchResult where
  | ok : Reading → FetchResult
  | accessTokenExpired : String → FetchResult
  | httpError : String → FetchResult
  | otherError : String → FetchResult
deriving DecidableEq

/-- The two host-platform error channels an update failure is mapped to:
`ConfigEntryAuthFailed` (reauthentication) and `UpdateFailed`
(transient retry). -/
inductive UpdateError where
  | configEntryAuthFailed : String → UpdateError
  | updateFailed : String → UpdateError
deriving DecidableEq

/-- `async_update_data` (the update method closed over by
`get_coordinator_for_meter`): returns the fetched `Reading` on success,
re-raises `AccessTokenExpired` as `ConfigEntryAuthFailed` and both
`HTTPError` and any other exception as `UpdateFailed`. -/
def async_update_data (fetched : FetchResult) : Except UpdateError Reading :=
  match fetched with
  | .ok r => .ok r
  | .accessTokenExpired _ =>
    .error (.configEntryAuthFailed "Got token expired while communicating with API")
  | .httpError err =>
    .error (.updateFailed ("Error communicating with API: " ++ err))
  | .otherError err =>
    .error (.updateFailed ("Unexpected error while communicating with API: " ++ err))

/-- A `DataUpdateCoordinator[Reading]` after its first refresh: it holds
the meter captured by its update closure and the most recently fetched
`Reading` (`coordinator.data`). -/
structure Coordinator where
  meter : Meter
  data : Reading
deriving DecidableEq

/-- `get_coordinator_for_meter` followed by
`async_config_entry_first_refresh`: creates the coordinator for `meter`
and performs the first fetch, propagating the update method's error. -/
def refreshedCoordinator (meter : Meter) (fetch : String → FetchResult) :
    Except UpdateError Coordinator :=
  match async_update_data (fetch meter.get_meter_id) with
  | .error e => .error e
  | .ok reading => .ok { meter := meter, data := reading }

/-- The fields a `DiscovergySensor` instance carries after `__init__`. -/
structure DiscovergySensor where
  data_key : String
  entity_description : DiscovergySensorEntityDescription
  unique_id : String
  device_name : String
  device_model : String
  coordinator : Coordinator
deriving DecidableEq

/-- Python `str.capitalize()`: first character uppercased, the rest
lowercased. -/
def pythonCapitalize (s : String) : String :=
  match s.data with
  | [] => ""
  | c :: rest => String.mk (c.toUpper :: rest.map Char.toLower)

/-- `DiscovergySensor.__init__(data_key, description, meter, coordinator)`. -/
def DiscovergySensor.init (data_key : String)
    (description : DiscovergySensorEntityDescription) (meter : Meter)
    (coordinator : Coordinator) : DiscovergySensor :=
  { data_key := data_key
    entity_description := description
    unique_id := meter.full_serial_number ++ "-" ++ description.key
    device_name := pythonCapitalize meter.measurement_type ++ " "
      ++ meter.location.street ++ " " ++ meter.location.street_number
    device_model := meter.type ++ " " ++ meter.full_serial_number
    coordinator := coordinator }

/-- `DiscovergySensor.native_value`: the raw value stored under the
entity's data key, divided by the description's scale.  `none` models the
faults: `KeyError` when the key is absent, `ZeroDivisionError` when the
scale is zero. -/
def DiscovergySensor.native_value (s : DiscovergySensor) : Option ℚ :=
  match alookup s.coordinator.data.values s.data_key with
  | none => none
  | some v =>
    if s.entity_description.scale = 0 then none
    else some (v / (s.entity_description.scale : ℚ))

/-- The `if meter.measurement_type == "ELECTRICITY" ... elif ... "GAS"`
selection of the candidate description table (`sensors`). -/
def sensorsFor (measurement_type : String) :
    Option (List DiscovergySensorEntityDescription) :=
  if measurement_type = "ELECTRICITY" then some ELECTRICITY_SENSORS
  else if measurement_type = "GAS" then some GAS_SENSORS
  else none

/-- The inner `for key in keys: if key in coordinator.data.values:
entities.append(DiscovergySensor(key, description, meter, coordinator))`
loop for one description: one entity appended per matching key. -/
def entitiesForDescription (description : DiscovergySensorEntityDescription)
    (meter : Meter) (coordinator : Coordinator) : List DiscovergySensor :=
  ((description.key :: description.alternative_keys).filter
      (fun key => coordinator.data.hasKey key)).map
    (fun key => DiscovergySensor.init key description meter coordinator)

/-- The `if sensors is not None: for description in sensors: ...` block:
all entities appended for one meter. -/
def entitiesForMeter (meter : Meter) (coordinator : Coordinator) :
    List DiscovergySensor :=
  match sensorsFor meter.measurement_type with
  | none => []
  | some sensors =>
    sensors.flatMap (fun d => entitiesForDescription d meter coordinator)

/-- Result of `async_setup_entry`: the `data.coordinators` dict, the
`entities` list passed to `async_add_entities`, and (for bookkeeping) the
coordinators in order of creation. -/
structure SetupResult where
  coordinators : List (String × Coordinator)
  entities : List DiscovergySensor
  created : List Coordinator
deriving DecidableEq

/-- The `for meter in meters:` loop of `async_setup_entry`.  Each
iteration creates a coordinator, performs its first refresh (aborting
setup on failure, before the coordinator is stored), stores it in
`data.coordinators` under the meter's id, and appends the meter's
entities. -/
def setupLoop (fetch : String → FetchResult) :
    List Meter → List (String × Coordinator) → List DiscovergySensor →
    List Coordinator → Except UpdateError SetupResult
  | [], coords, ents, created =>
    .ok { coordinators := coords, entities := ents, created := created }
  | meter :: rest, coords, ents, created =>
    match refreshedCoordinator meter fetch with
    | .error e => .error e
    | .ok coordinator =>
      setupLoop fetch rest
        (dictInsert coords meter.get_meter_id coordinator)
        (ents ++ entitiesForMeter meter coordinator)
        (created ++ [coordinator])

/-- `async_setup_entry`, starting from empty `data.coordinators` and
`entities`. -/
def async_setup_entry (meters : List Meter) (fetch : String → FetchResult) :
    Except UpdateError SetupResult :=
  setupLoop fetch meters [] [] []

lemma alookup_dictInsert_self {α β : Type} [DecidableEq α]
    (d : List (α × β)) (k : α) (v : β) :
    alookup (dictInsert d k v) k = some v := by
  induction d with
  | nil => simp [dictInsert, alookup]
  | cons hd tl ih =>
    obtain ⟨a, b⟩ := hd
    by_cases hak : a = k
    · simp [dictInsert, hak, alookup]
    · simp [dictInsert, hak, alookup, ih]

lemma alookup_dictInsert_ne {α β : Type} [DecidableEq α]
    (d : List (α × β)) (k k' : α) (v : β) (hne : k' ≠ k) :
    alookup (dictInsert d k v) k' = alookup d k' := by
  induction d with
  | nil => simp [dictInsert, alookup, Ne.symm hne]
  | cons hd tl ih =>
    obtain ⟨a, b⟩ := hd
    by_cases hak : a = k
    · subst hak
      simp [dictInsert, alookup, Ne.symm hne]
    · simp only [dictInsert, if_neg hak, alookup]
      by_cases hak' : a = k'
      · simp [hak']
      · simp [hak', ih]

lemma alookup_dictInsert_mem {α β : Type} [DecidableEq α]
    (d : List (α × β)) (k k' : α) (v v' : β)
    (h : alookup (dictInsert d k v) k' = some v') :
    v' = v ∨ alookup d k' = some v' := by
  by_cases hk : k' = k
  · subst hk
    rw [alookup_dictInsert_self] at h
    exact Or.inl (Option.some.inj h).symm
  · rw [alookup_dictInsert_ne d k k' v hk] at h
    exact Or.inr h

/-- Characterisation of the entities appended for a single meter: each
comes from the selected table, via a key of its description that is
present in the coordinator's data. -/
lemma mem_entitiesForMeter {e : DiscovergySensor} {m : Meter} {c : Coordinator}
    (h : e ∈ entitiesForMeter m c) :
    ∃ sensors, sensorsFor m.measurement_type = some sensors ∧
      ∃ d ∈ sensors, ∃ k ∈ d.key :: d.alternative_keys,
        c.data.hasKey k = true ∧ e = DiscovergySensor.init k d m c := by
  unfold entitiesForMeter at h
  cases hs : sensorsFor m.measurement_type with
  | none => rw [hs] at h; simp at h
  | some sensors =>
    rw [hs] at h
    refine ⟨sensors, rfl, ?_⟩
    rw [List.mem_flatMap] at h
    obtain ⟨d, hd, he⟩ := h
    refine ⟨d, hd, ?_⟩
    unfold entitiesForDescription at he
    rw [List.mem_map] at he
    obtain ⟨k, hk, rfl⟩ := he
    rw [List.mem_filter] at hk
    exact ⟨k, hk.1, hk.2, rfl⟩

/-- If the first refresh succeeds, the coordinator holds the meter and
the fetched reading. -/
lemma refreshedCoordinator_ok {m : Meter} {fetch : String → FetchResult}
    {c : Coordinator} (h : refreshedCoordinator m fetch = .ok c) :
    c.meter = m ∧ async_update_data (fetch m.get_meter_id) = .ok c.data := by
  unfold refreshedCoordinator at h
  cases hu : async_update_data (fetch m.get_meter_id) with
  | error e => rw [hu] at h; exact absurd h (by simp)
  | ok r =>
    rw [hu] at h
    cases h
    exact ⟨rfl, rfl⟩

/-- Coordinators already created persist through the rest of the loop. -/
lemma setupLoop_created_mono {fetch : String → FetchResult} :
    ∀ (ms : List Meter) (coords : List (String × Coordinator))
      (ents : List DiscovergySensor) (created : List Coordinator)
      (res : SetupResult),
      setupLoop fetch ms coords ents created = .ok res →
      ∀ c ∈ created, c ∈ res.created := by
  intro ms
  induction ms with
  | nil =>
    intro coords ents created res h c hc
    unfold setupLoop at h
    cases h
    exact hc
  | cons m rest ih =>
    intro coords ents created res h c hc
    unfold setupLoop at h
    cases hr : refreshedCoordinator m fetch with
    | error e => rw [hr] at h; exact absurd h (by simp)
    | ok c0 =>
      rw [hr] at h
      exact ih _ _ _ res h c (by simp [hc])

/-- The coordinators created by the loop: one per remaining meter, in
order, each holding its own meter and that meter's first-refresh data. -/
lemma setupLoop_created {fetch : String → FetchResult} :
    ∀ (ms : List Meter) (coords : List (String × Coordinator))
      (ents : List DiscovergySensor) (created : List Coordinator)
      (res : SetupResult),
      setupLoop fetch ms coords ents created = .ok res →
      ∃ newCreated, res.created = created ++ newCreated ∧
        newCreated.length = ms.length ∧
        ∀ i (hi : i < ms.length) (hi' : i < newCreated.length),
          (newCreated.get ⟨i, hi'⟩).meter = ms.get ⟨i, hi⟩ ∧
          async_update_data (fetch (ms.get ⟨i, hi⟩).get_meter_id) =
            .ok (newCreated.get ⟨i, hi'⟩).data := by
  intro ms
  induction ms with
  | nil =>
    intro coords ents created res h
    unfold setupLoop at h
    cases h
    exact ⟨[], by simp, by simp, by intro i hi; exact absurd hi (by simp)⟩
  | cons m rest ih =>
    intro coords ents created res h
    unfold setupLoop at h
    cases hr : refreshedCoordinator m fetch with
    | error e => rw [hr] at h; exact absurd h (by simp)
    | ok c0 =>
      rw [hr] at h
      obtain ⟨nc, hres, hlen, hidx⟩ := ih _ _ _ res h
      refine ⟨c0 :: nc, by simpa using hres, by simpa using hlen, ?_⟩
      intro i hi hi'
      cases i with
      | zero =>
        obtain ⟨hm, hd⟩ := refreshedCoordinator_ok hr
        exact ⟨hm, by simpa using hd⟩
      | succ j =>
        have hj : j < rest.length := by simpa using hi
        have hj' : j < nc.length := by simpa using hi'
        simpa using hidx j hj hj'

/-- Keys already bound in `data.coordinators` stay bound through the rest
of the loop. -/
lemma setupLoop_coords_persist {fetch : String → FetchResult} :
    ∀ (ms : List Meter) (coords : List (String × Coordinator))
      (ents : List DiscovergySensor) (created : List Coordinator)
      (res : SetupResult),
      setupLoop fetch ms coords ents created = .ok res →
      ∀ k, (alookup coords k).isSome →
        (alookup res.coordinators k).isSome := by
  intro ms
  induction ms with
  | nil =>
    intro coords ents created res h k hk
    unfold setupLoop at h
    cases h
    exact hk
  | cons m rest ih =>
    intro coords ents created res h k hk
    unfold setupLoop at h
    cases hr : refreshedCoordinator m fetch with
    | error e => rw [hr] at h; exact absurd h (by simp)
    | ok c0 =>
      rw [hr] at h
      refine ih _ _ _ res h k ?_
      by_cases hkm : k = m.get_meter_id
      · subst hkm
        rw [alookup_dictInsert_self]
        simp
      · rw [alookup_dictInsert_ne _ _ _ _ hkm]
        exact hk

/-- After a successful loop, every processed meter's id is bound in
`data.coordinators`. -/
lemma setupLoop_coords_bound {fetch : String → FetchResult} :
    ∀ (ms : List Meter) (coords : List (String × Coordinator))
      (ents : List DiscovergySensor) (created : List Coordinator)
      (res : SetupResult),
      setupLoop fetch ms coords ents created = .ok res →
      ∀ m ∈ ms, (alookup res.coordinators m.get_meter_id).isSome := by
  intro ms
  induction ms with
  | nil =>
    intro coords ents created res h m hm
    exact absurd hm (by simp)
  | cons m0 rest ih =>
    intro coords ents created res h m hm
    unfold setupLoop at h
    cases hr : refreshedCoordinator m0 fetch with
    | error e => rw [hr] at h; exact absurd h (by simp)
    | ok c0 =>
      rw [hr] at h
      rcases List.mem_cons.mp hm with hm0 | hmr
      · subst hm0
        refine setupLoop_coords_persist rest _ _ _ res h _ ?_
        rw [alookup_dictInsert_self]
        simp
      · exact ih _ _ _ res h m hmr

/-- Every binding in the final `data.coordinators` dict is either an
initial binding or a coordinator created by the loop. -/
lemma setupLoop_coords_mem {fetch : String → FetchResult} :
    ∀ (ms : List Meter) (coords : List (String × Coordinator))
      (ents : List DiscovergySensor) (created : List Coordinator)
      (res : SetupResult),
      setupLoop fetch ms coords ents created = .ok res →
      ∀ k c, alookup res.coordinators k = some c →
        alookup coords k = some c ∨ c ∈ res.created := by
  intro ms
  induction ms with
  | nil =>
    intro coords ents created res h k c hk
    unfold setupLoop at h
    cases h
    exact Or.inl hk
  | cons m rest ih =>
    intro coords ents created res h k c hk
    unfold setupLoop at h
    cases hr : refreshedCoordinator m fetch with
    | error e => rw [hr] at h; exact absurd h (by simp)
    | ok c0 =>
      rw [hr] at h
      rcases ih _ _ _ res h k c hk with hin | hnew
      · rcases alookup_dictInsert_mem _ _ _ _ _ hin with hc0 | hcoords
        · subst hc0
          exact Or.inr (setupLoop_created_mono rest _ _ _ res h c (by simp))
        · exact Or.inl hcoords
      · exact Or.inr hnew

/-- Provenance of every entity produced by a successful loop: it was in
the accumulator already, or it was built for some remaining meter from
that meter's freshly refreshed coordinator, which is among the created
coordinators. -/
lemma setupLoop_entities {fetch : String → FetchResult} :
    ∀ (ms : List Meter) (coords : List (String × Coordinator))
      (ents : List DiscovergySensor) (created : List Coordinator)
      (res : SetupResult),
      setupLoop fetch ms coords ents created = .ok res →
      ∀ e ∈ res.entities, e ∈ ents ∨
        ∃ m ∈ ms, ∃ c, refreshedCoordinator m fetch = .ok c ∧
          c ∈ res.created ∧ e ∈ entitiesForMeter m c := by
  intro ms
  induction ms with
  | nil =>
    intro coords ents created res h e he
    unfold setupLoop at h
    cases h
    exact Or.inl he
  | cons m rest ih =>
    intro coords ents created res h e he
    unfold setupLoop at h
    cases hr : refreshedCoordinator m fetch with
    | error err => rw [hr] at h; exact absurd h (by simp)
    | ok c0 =>
      rw [hr] at h
      rcases ih _ _ _ res h e he with hacc | ⟨m', hm', c, hc, hcc, hec⟩
      · rcases List.mem_append.mp hacc with hold | hnew
        · exact Or.inl hold
        · refine Or.inr ⟨m, by simp, c0, hr, ?_, hnew⟩
          exact setupLoop_created_mono rest _ _ _ res h c0 (by simp)
      · exact Or.inr ⟨m', by simp [hm'], c, hc, hcc, hec⟩

/-- The loop succeeds whenever every remaining meter's fetch succeeds,
whatever keys the readings contain. -/
lemma setupLoop_ok_of_fetch {fetch : String → FetchResult} :
    ∀ (ms : List Meter) (coords : List (String × Coordinator))
      (ents : List DiscovergySensor) (created : List Coordinator),
      (∀ m ∈ ms, ∃ r, fetch m.get_meter_id = .ok r) →
      ∃ res, setupLoop fetch ms coords ents created = .ok res := by
  intro ms
  induction ms with
  | nil =>
    intro coords ents created _
    exact ⟨_, rfl⟩
  | cons m rest ih =>
    intro coords ents created hall
    obtain ⟨r, hr⟩ := hall m (by simp)
    have hrc : refreshedCoordinator m fetch = .ok { meter := m, data := r } := by
      unfold refreshedCoordinator
      rw [hr]
      rfl
    obtain ⟨res, hres⟩ := ih _ _ _ (fun m' hm' => hall m' (by simp [hm']))
    refine ⟨res, ?_⟩
    unfold setupLoop
    rw [hrc]
    exact hres

/-- The module-level description tables, as a piece of state that the rest
of the code could in principle mutate (Python dataclass instances and
module globals are mutable). -/
structure ModuleTables where
  gas : List DiscovergySensorEntityDescription
  electricity : List DiscovergySensorEntityDescription
deriving DecidableEq

/-- The tables as built once at module load. -/
def moduleTables : ModuleTables :=
  { gas := GAS_SENSORS, electricity := ELECTRICITY_SENSORS }

/-- Table selection with the module tables threaded explicitly. -/
def sensorsForSt (tabs : ModuleTables) (measurement_type : String) :
    Option (List DiscovergySensorEntityDescription) :=
  if measurement_type = "ELECTRICITY" then some tabs.electricity
  else if measurement_type = "GAS" then some tabs.gas
  else none

/-- Per-meter entity construction with the module tables threaded
explicitly. -/
def entitiesForMeterSt (tabs : ModuleTables) (meter : Meter)
    (coordinator : Coordinator) : List DiscovergySensor :=
  match sensorsForSt tabs meter.measurement_type with
  | none => []
  | some sensors =>
    sensors.flatMap (fun d => entitiesForDescription d meter coordinator)

/-- The setup loop with the module tables threaded through every
iteration; the body only reads them (the source never assigns to
`GAS_SENSORS`, `ELECTRICITY_SENSORS` or any description field), so the
tables component is passed along unchanged. -/
def setupLoopSt (fetch : String → FetchResult) :
    List Meter → ModuleTables → List (String × Coordinator) →
    List DiscovergySensor → List Coordinator →
    Except UpdateError SetupResult × ModuleTables
  | [], tabs, coords, ents, created =>
    (.ok { coordinators := coords, entities := ents, created := created }, tabs)
  | meter :: rest, tabs, coords, ents, created =>
    match refreshedCoordinator meter fetch with
    | .error e => (.error e, tabs)
    | .ok coordinator =>
      setupLoopSt fetch rest tabs
        (dictInsert coords meter.get_meter_id coordinator)
        (ents ++ entitiesForMeterSt tabs meter coordinator)
        (created ++ [coordinator])

/-- `async_setup_entry` with the module tables threaded explicitly. -/
def async_setup_entry_st (tabs : ModuleTables) (meters : List Meter)
    (fetch : String → FetchResult) :
    Except UpdateError SetupResult × ModuleTables :=
  setupLoopSt fetch meters tabs [] [] []

/-- `DiscovergySensor.native_value` with the module tables threaded
explicitly: the property reads only `self.coordinator.data.values`,
`self.data_key` and `self.entity_description.scale`, so the tables come
back unchanged. -/
def DiscovergySensor.native_value_st (tabs : ModuleTables)
    (s : DiscovergySensor) : Option ℚ × ModuleTables :=
  (s.native_value, tabs)

lemma sensorsForSt_moduleTables (t : String) :
    sensorsForSt moduleTables t = sensorsFor t := by
  unfold sensorsForSt sensorsFor moduleTables
  rfl

lemma entitiesForMeterSt_moduleTables (m : Meter) (c : Coordinator) :
    entitiesForMeterSt moduleTables m c = entitiesForMeter m c := by
  unfold entitiesForMeterSt entitiesForMeter
  rw [sensorsForSt_moduleTables]

/-- The threaded loop returns its tables component untouched. -/
lemma setupLoopSt_tables {fetch : String → FetchResult} :
    ∀ (ms : List Meter) (tabs : ModuleTables)
      (coords : List (String × Coordinator)) (ents : List DiscovergySensor)
      (created : List Coordinator),
      (setupLoopSt fetch ms tabs coords ents created).2 = tabs := by
  intro ms
  induction ms with
  | nil => intro tabs coords ents created; rfl
  | cons m rest ih =>
    intro tabs coords ents created
    unfold setupLoopSt
    cases hr : refreshedCoordinator m fetch with
    | error e => rfl
    | ok c0 => exact ih tabs _ _ _

/-- At the load-time tables, the threaded loop computes exactly the
unthreaded one. -/
lemma setupLoopSt_eq {fetch : String → FetchResult} :
    ∀ (ms : List Meter) (coords : List (String × Coordinator))
      (ents : List DiscovergySensor) (created : List Coordinator),
      (setupLoopSt fetch ms moduleTables coords ents created).1 =
        setupLoop fetch ms coords ents created := by
  intro ms
  induction ms with
  | nil => intro coords ents created; rfl
  | cons m rest ih =>
    intro coords ents created
    unfold setupLoopSt setupLoop
    cases hr : refreshedCoordinator m fetch with
    | error e => rfl
    | ok c0 =>
      simp only [entitiesForMeterSt_moduleTables]
      exact ih _ _ _

/-- A sample installation location. -/
def sampleLocation : Location := { street := "Main Street", street_number := "1" }

/-- A sample gas meter. -/
def sampleGasMeter : Meter :=
  { meter_id := "gas-1", full_serial_number := "GAS-0001",
    measurement_type := "GAS", type := "TST", location := sampleLocation }

/-- A sample first reading for the gas meter. -/
def sampleGasReading : Reading := { time := 0, values := [("volume", 12345)] }

/-- A fetch oracle that always returns the sample gas reading. -/
def sampleGasFetch : String → FetchResult := fun _ => .ok sampleGasReading

/-- The coordinator setup builds for the sample gas meter. -/
def sampleGasCoordinator : Coordinator :=
  { meter := sampleGasMeter, data := sampleGasReading }

/-- The gas `volume` description (the sole element of `GAS_SENSORS`). -/
def gasVolumeDesc : DiscovergySensorEntityDescription :=
  { key := "volume"
    translation_key := "total_gas_consumption"
    suggested_display_precision := 4
    native_unit_of_measurement := UnitOfVolume.CUBIC_METERS
    device_class := "gas"
    state_class := "total_increasing" }

/-- The single entity setup builds for the sample gas meter. -/
def sampleGasEntity : DiscovergySensor :=
  DiscovergySensor.init "volume" gasVolumeDesc sampleGasMeter sampleGasCoordinator

/-- The full setup result for the sample gas meter. -/
def sampleGasResult : SetupResult :=
  { coordinators := [("gas-1", sampleGasCoordinator)]
    entities := [sampleGasEntity]
    created := [sampleGasCoordinator] }

/-- C1: `native_value` returns the raw value stored in the coordinator's
current `Reading` under the entity's `data_key`, divided by the
description's scale factor (real-number division; Python returns it as a
`float`). -/
theorem native_value_div_scale (s : DiscovergySensor) (v : ℚ)
    (hv : alookup s.coordinator.data.values s.data_key = some v)
    (hs : s.entity_description.scale ≠ 0) :
    s.native_value = some (v / (s.entity_description.scale : ℚ)) := by
  unfold DiscovergySensor.native_value
  rw [hv]
  simp [hs]

/-- Witness for C1 at the sample gas entity: `12345 / 1000`. -/
theorem native_value_div_scale_witness :
    sampleGasEntity.native_value = some ((12345 : ℚ) / (1000 : ℚ)) :=
  native_value_div_scale sampleGasEntity 12345 (by rfl) (by decide)

/-- C2: a sensor entity is created only if its data key (the matched key,
one of the description's primary or alternative keys) is present in the
meter's first fetched reading, and absent keys never make setup fail:
whenever every meter's fetch succeeds, setup returns `.ok`. -/
theorem entities_only_for_present_keys (meters : List Meter)
    (fetch : String → FetchResult) :
    ((∀ m ∈ meters, ∃ r, fetch m.get_meter_id = .ok r) →
      ∃ res, async_setup_entry meters fetch = .ok res) ∧
    (∀ res, async_setup_entry meters fetch = .ok res →
      ∀ e ∈ res.entities,
        e.data_key ∈
          e.entity_description.key :: e.entity_description.alternative_keys ∧
        e.coordinator.data.hasKey e.data_key = true) := by
  constructor
  · intro hall
    exact setupLoop_ok_of_fetch meters [] [] [] hall
  · intro res h e he
    rcases setupLoop_entities meters [] [] [] res h e he with habs | hprov
    · exact absurd habs (by simp)
    · obtain ⟨m, hm, c, hc, hcc, hec⟩ := hprov
      obtain ⟨sensors, hs, d, hd, k, hk, hkey, rfl⟩ := mem_entitiesForMeter hec
      exact ⟨hk, hkey⟩

/-- Witness for C2 at the sample gas setup. -/
theorem entities_only_for_present_keys_witness :
    sampleGasEntity.data_key ∈
      sampleGasEntity.entity_description.key ::
        sampleGasEntity.entity_description.alternative_keys ∧
    sampleGasEntity.coordinator.data.hasKey sampleGasEntity.data_key = true :=
  (entities_only_for_present_keys [sampleGasMeter] sampleGasFetch).2
    sampleGasResult (by rfl) sampleGasEntity (by simp [sampleGasResult])

/-- C4: the update method maps every fetch outcome to exactly two error
channels: success returns the `Reading` unchanged, `AccessTokenExpired`
becomes `ConfigEntryAuthFailed`, and `HTTPError` and any other exception
become `UpdateFailed`. -/
theorem update_errors_two_channels :
    (∀ r, async_update_data (.ok r) = .ok r) ∧
    (∀ msg, async_update_data (.accessTokenExpired msg) =
      .error (.configEntryAuthFailed
        "Got token expired while communicating with API")) ∧
    (∀ msg, async_update_data (.httpError msg) =
      .error (.updateFailed ("Error communicating with API: " ++ msg))) ∧
    (∀ msg, async_update_data (.otherError msg) =
      .error (.updateFailed
        ("Unexpected error while communicating with API: " ++ msg))) ∧
    (∀ f, (∃ r, f = .ok r ∧ async_update_data f = .ok r) ∨
      (∃ m, async_update_data f = .error (.configEntryAuthFailed m)) ∨
      (∃ m, async_update_data f = .error (.updateFailed m))) := by
  refine ⟨fun r => rfl, fun msg => rfl, fun msg => rfl, fun msg => rfl, ?_⟩
  intro f
  cases f with
  | ok r => exact Or.inl ⟨r, rfl, rfl⟩
  | accessTokenExpired msg => exact Or.inr (Or.inl ⟨_, rfl⟩)
  | httpError msg => exact Or.inr (Or.inr ⟨_, rfl⟩)
  | otherError msg => exact Or.inr (Or.inr ⟨_, rfl⟩)

/-- A sample electricity meter. -/
def sampleElecMeter : Meter :=
  { meter_id := "elec-1", full_serial_number := "ELC-0001",
    measurement_type := "ELECTRICITY", type := "TST",
    location := sampleLocation }

/-- A first reading containing both the primary key `power1` and its
alternative key `phase1Power`. -/
def sampleDupReading : Reading :=
  { time := 0, values := [("power1", 42), ("phase1Power", 43)] }

/-- A fetch oracle that always returns the dual-key reading. -/
def sampleDupFetch : String → FetchResult := fun _ => .ok sampleDupReading

/-- The coordinator setup builds for the sample electricity meter. -/
def sampleDupCoordinator : Coordinator :=
  { meter := sampleElecMeter, data := sampleDupReading }

/-- The `power1` description (second element of `ELECTRICITY_SENSORS`). -/
def power1Desc : DiscovergySensorEntityDescription :=
  { key := "power1"
    translation_key := "phase_1_power"
    native_unit_of_measurement := UnitOfPower.WATT
    suggested_display_precision := 3
    device_class := "power"
    state_class := "measurement"
    entity_registry_enabled_default := false
    alternative_keys := ["phase1Power"] }

/-- C3 (failing input): when both the primary key `power1` and its
alternative key `phase1Power` are present in the first reading, setup
constructs TWO `DiscovergySensor` entities from the single `power1`
description for the same meter — one per matching key — not at most
one. -/
theorem duplicate_entities_for_dual_keys :
    async_setup_entry [sampleElecMeter] sampleDupFetch =
      .ok { coordinators := [("elec-1", sampleDupCoordinator)]
            entities :=
              [DiscovergySensor.init "power1" power1Desc sampleElecMeter
                sampleDupCoordinator,
               DiscovergySensor.init "phase1Power" power1Desc sampleElecMeter
                sampleDupCoordinator]
            created := [sampleDupCoordinator] } := by
  rfl

/-- C5: setup creates one refreshed coordinator per meter, in meter-list
order, each pinned to its own meter with its own first-refresh data,
stores one under every meter's id, and every entity references one of
the coordinators created during setup. -/
theorem one_coordinator_per_meter (meters : List Meter)
    (fetch : String → FetchResult) (res : SetupResult)
    (h : async_setup_entry meters fetch = .ok res) :
    res.created.length = meters.length ∧
    (∀ i (hm : i < meters.length) (hc : i < res.created.length),
      (res.created.get ⟨i, hc⟩).meter = meters.get ⟨i, hm⟩ ∧
      async_update_data (fetch (meters.get ⟨i, hm⟩).get_meter_id) =
        .ok (res.created.get ⟨i, hc⟩).data) ∧
    (∀ m ∈ meters, ∃ c, c ∈ res.created ∧
      alookup res.coordinators m.get_meter_id = some c) ∧
    (∀ e ∈ res.entities, e.coordinator ∈ res.created) := by
  obtain ⟨nc, hres, hlen, hidx⟩ := setupLoop_created meters [] [] [] res h
  have hnc : res.created = nc := by simpa using hres
  subst hnc
  refine ⟨hlen, ?_, ?_, ?_⟩
  · intro i hm hc
    exact hidx i hm hc
  · intro m hm
    have hbound := setupLoop_coords_bound meters [] [] [] res h m hm
    cases hl : alookup res.coordinators m.get_meter_id with
    | none => rw [hl] at hbound; exact absurd hbound (by simp)
    | some c =>
      rcases setupLoop_coords_mem meters [] [] [] res h _ c hl with hinit | hmem
      · exact absurd hinit (by simp [alookup])
      · exact ⟨c, hmem, rfl⟩
  · intro e he
    rcases setupLoop_entities meters [] [] [] res h e he with habs | hprov
    · exact absurd habs (by simp)
    · obtain ⟨m, hm, c, hc, hcc, hec⟩ := hprov
      obtain ⟨sensors, hs, d, hd, k, hk, hkey, rfl⟩ := mem_entitiesForMeter hec
      exact hcc

/-- Witness for C5 at the sample gas setup. -/
theorem one_coordinator_per_meter_witness :
    sampleGasResult.created.length = [sampleGasMeter].length ∧
    (alookup sampleGasResult.coordinators sampleGasMeter.get_meter_id).isSome
      = true := by
  have h := one_coordinator_per_meter [sampleGasMeter] sampleGasFetch
    sampleGasResult (by rfl)
  obtain ⟨c, hc, hl⟩ := h.2.2.1 sampleGasMeter (by simp)
  exact ⟨h.1, by rw [hl]; rfl⟩

/-- C6: every entity comes from the table selected solely by its meter's
measurement type — `ELECTRICITY_SENSORS` for `"ELECTRICITY"`,
`GAS_SENSORS` for `"GAS"` — further filtered by key presence in the
first reading. -/
theorem sensors_chosen_by_measurement_type (meters : List Meter)
    (fetch : String → FetchResult) (res : SetupResult)
    (h : async_setup_entry meters fetch = .ok res) :
    ∀ e ∈ res.entities,
      e.coordinator.meter ∈ meters ∧
      ((e.coordinator.meter.measurement_type = "ELECTRICITY" ∧
        e.entity_description ∈ ELECTRICITY_SENSORS) ∨
       (e.coordinator.meter.measurement_type = "GAS" ∧
        e.entity_description ∈ GAS_SENSORS)) ∧
      e.coordinator.data.hasKey e.data_key = true := by
  intro e he
  rcases setupLoop_entities meters [] [] [] res h e he with habs | hprov
  · exact absurd habs (by simp)
  · obtain ⟨m, hm, c, hc, hcc, hec⟩ := hprov
    obtain ⟨sensors, hs, d, hd, k, hk, hkey, rfl⟩ := mem_entitiesForMeter hec
    obtain ⟨hmeq, hdata⟩ := refreshedCoordinator_ok hc
    refine ⟨?_, ?_, hkey⟩
    · show c.meter ∈ meters
      rw [hmeq]
      exact hm
    · show (c.meter.measurement_type = "ELECTRICITY" ∧
          d ∈ ELECTRICITY_SENSORS) ∨
        (c.meter.measurement_type = "GAS" ∧ d ∈ GAS_SENSORS)
      rw [hmeq]
      unfold sensorsFor at hs
      by_cases he1 : m.measurement_type = "ELECTRICITY"
      · rw [if_pos he1] at hs
        have hsens := Option.some.inj hs
        subst hsens
        exact Or.inl ⟨he1, hd⟩
      · rw [if_neg he1] at hs
        by_cases he2 : m.measurement_type = "GAS"
        · rw [if_pos he2] at hs
          have hsens := Option.some.inj hs
          subst hsens
          exact Or.inr ⟨he2, hd⟩
        · rw [if_neg he2] at hs
          exact absurd hs (by simp)

/-- Witness for C6 at the sample gas setup. -/
theorem sensors_chosen_by_measurement_type_witness :
    sampleGasEntity.coordinator.meter ∈ [sampleGasMeter] ∧
    ((sampleGasEntity.coordinator.meter.measurement_type = "ELECTRICITY" ∧
      sampleGasEntity.entity_description ∈ ELECTRICITY_SENSORS) ∨
     (sampleGasEntity.coordinator.meter.measurement_type = "GAS" ∧
      sampleGasEntity.entity_description ∈ GAS_SENSORS)) ∧
    sampleGasEntity.coordinator.data.hasKey sampleGasEntity.data_key = true :=
  sensors_chosen_by_measurement_type [sampleGasMeter] sampleGasFetch
    sampleGasResult (by rfl) sampleGasEntity (by simp [sampleGasResult])

/-- C7: the description tables are built once at load and never mutated:
threading them through setup (and through `native_value`) returns them
unchanged, the threaded pipeline computes exactly the unthreaded one at
the load-time tables, and every entity's description is one of the
(shared, read-only) table elements. -/
theorem description_tables_immutable (meters : List Meter)
    (fetch : String → FetchResult) :
    (∀ tabs : ModuleTables,
      (async_setup_entry_st tabs meters fetch).2 = tabs) ∧
    (async_setup_entry_st moduleTables meters fetch).1 =
      async_setup_entry meters fetch ∧
    (∀ (tabs : ModuleTables) (s : DiscovergySensor),
      (DiscovergySensor.native_value_st tabs s).2 = tabs ∧
      (DiscovergySensor.native_value_st tabs s).1 = s.native_value) ∧
    (∀ res, async_setup_entry meters fetch = .ok res →
      ∀ e ∈ res.entities,
        e.entity_description ∈ moduleTables.electricity ∨
        e.entity_description ∈ moduleTables.gas) := by
  refine ⟨fun tabs => setupLoopSt_tables meters tabs [] [] [],
    setupLoopSt_eq meters [] [] [], fun tabs s => ⟨rfl, rfl⟩, ?_⟩
  intro res h e he
  rcases setupLoop_entities meters [] [] [] res h e he with habs | hprov
  · exact absurd habs (by simp)
  · obtain ⟨m, hm, c, hc, hcc, hec⟩ := hprov
    obtain ⟨sensors, hs, d, hd, k, hk, hkey, rfl⟩ := mem_entitiesForMeter hec
    show d ∈ moduleTables.electricity ∨ d ∈ moduleTables.gas
    unfold sensorsFor at hs
    by_cases he1 : m.measurement_type = "ELECTRICITY"
    · rw [if_pos he1] at hs
      have hsens := Option.some.inj hs
      subst hsens
      exact Or.inl hd
    · rw [if_neg he1] at hs
      by_cases he2 : m.measurement_type = "GAS"
      · rw [if_pos he2] at hs
        have hsens := Option.some.inj hs
        subst hsens
        exact Or.inr hd
      · rw [if_neg he2] at hs
        exact absurd hs (by simp)

/-- Witness for C7 at the sample gas setup. -/
theorem description_tables_immutable_witness :
    (async_setup_entry_st moduleTables [sampleGasMeter] sampleGasFetch).2 =
      moduleTables ∧
    (sampleGasEntity.entity_description ∈ moduleTables.electricity ∨
      sampleGasEntity.entity_description ∈ moduleTables.gas) := by
  have h := description_tables_immutable [sampleGasMeter] sampleGasFetch
  exact ⟨h.1 moduleTables,
    h.2.2.2 sampleGasResult (by rfl) sampleGasEntity (by simp [sampleGasResult])⟩

/-- C8: the unique id set by `__init__` is always the meter's full serial
number joined by a hyphen to the description's PRIMARY key, whatever key
the entity was matched on — so two entities built from the same
description for the same meter get identical unique ids. -/
theorem unique_id_uses_primary_key (k : String)
    (d : DiscovergySensorEntityDescription) (m : Meter) (c : Coordinator) :
    (DiscovergySensor.init k d m c).unique_id =
      m.full_serial_number ++ "-" ++ d.key ∧
    ∀ (k' : String) (c' : Coordinator),
      (DiscovergySensor.init k d m c).unique_id =
        (DiscovergySensor.init k' d m c').unique_id :=
  ⟨rfl, fun _ _ => rfl⟩

/-- C9: every description in the tables has a strictly positive scale
(1000 by default, 10000000000 for the energy descriptions), so
`native_value` never faults — neither on a missing key nor by dividing
by zero — for an entity whose data key is present in the coordinator's
current reading. -/
theorem scales_positive_no_fault :
    (∀ d ∈ GAS_SENSORS ++ ELECTRICITY_SENSORS,
      0 < d.scale ∧ (d.scale = 1000 ∨ d.scale = 10000000000)) ∧
    (∀ s : DiscovergySensor,
      s.entity_description ∈ GAS_SENSORS ++ ELECTRICITY_SENSORS →
      (alookup s.coordinator.data.values s.data_key).isSome = true →
      s.native_value.isSome = true) := by
  constructor
  · decide
  · intro s hd hk
    have hall : ∀ d ∈ GAS_SENSORS ++ ELECTRICITY_SENSORS, 0 < d.scale := by
      decide
    have hpos : (0 : Int) < s.entity_description.scale := hall _ hd
    unfold DiscovergySensor.native_value
    cases hv : alookup s.coordinator.data.values s.data_key with
    | none => rw [hv] at hk; exact absurd hk (by simp)
    | some v =>
      simp [ne_of_gt hpos]

/-- Witness for C9 at the sample gas entity. -/
theorem scales_positive_no_fault_witness :
    sampleGasEntity.native_value.isSome = true :=
  scales_positive_no_fault.2 sampleGasEntity (by decide) (by rfl)

/-- A sample meter of a measurement type that is neither electricity nor
gas. -/
def sampleWaterMeter : Meter :=
  { meter_id := "water-1", full_serial_number := "WTR-0001",
    measurement_type := "WATER", type := "TST",
    location := sampleLocation }

/-- A sample first reading for the water meter. -/
def sampleWaterReading : Reading := { time := 0, values := [("volume", 7)] }

/-- A fetch oracle that always returns the sample water reading. -/
def sampleWaterFetch : String → FetchResult := fun _ => .ok sampleWaterReading

/-- C10: for a meter whose measurement type is neither `"ELECTRICITY"`
nor `"GAS"`, setup still creates, refreshes and stores a coordinator for
it, builds zero entities for it, and completes without error. -/
theorem other_meter_types_no_entities (m : Meter)
    (fetch : String → FetchResult) (r : Reading)
    (h1 : m.measurement_type ≠ "ELECTRICITY")
    (h2 : m.measurement_type ≠ "GAS")
    (hf : fetch m.get_meter_id = .ok r) :
    async_setup_entry [m] fetch =
      .ok { coordinators := [(m.get_meter_id, { meter := m, data := r })]
            entities := []
            created := [{ meter := m, data := r }] } ∧
    ∀ c : Coordinator, entitiesForMeter m c = [] := by
  have hefm : ∀ c : Coordinator, entitiesForMeter m c = [] := by
    intro c
    unfold entitiesForMeter sensorsFor
    rw [if_neg h1, if_neg h2]
  constructor
  · have hrc : refreshedCoordinator m fetch = .ok { meter := m, data := r } := by
      unfold refreshedCoordinator
      rw [hf]
      rfl
    unfold async_setup_entry setupLoop
    rw [hrc]
    show setupLoop fetch []
        (dictInsert [] m.get_meter_id { meter := m, data := r })
        ([] ++ entitiesForMeter m { meter := m, data := r })
        ([] ++ [{ meter := m, data := r }]) = _
    rw [hefm]
    rfl
  · exact hefm

/-- Witness for C10 at the sample water meter. -/
theorem other_meter_types_no_entities_witness :
    async_setup_entry [sampleWaterMeter] sampleWaterFetch =
      .ok { coordinators :=
              [(sampleWaterMeter.get_meter_id,
                { meter := sampleWaterMeter, data := sampleWaterReading })]
            entities := []
            created := [{ meter := sampleWaterMeter,
                          data := sampleWaterReading }] } :=
  (other_meter_types_no_entities sampleWaterMeter sampleWaterFetch
    sampleWaterReading (by decide) (by decide) (by rfl)).1
